import Mathlib

/-!
Verification of the diffeqzoo backend registry and order-reduction
transform.

This file gives a shallow embedding of the two core components of the
`diffeqzoo` repository:

* the pluggable numeric-backend registry (`src/diffeqzoo/__init__.py`,
  class `backend`), modelled as explicit state passing over a
  `BackendState` record, with Python exceptions modelled as explicit
  error values;
* the second-order-to-first-order problem transform
  (`src/odezoo/transform.py`), modelled over a small array universe of
  0-dimensional and 1-dimensional arrays.

Theorems at the end settle the spec's claims against these definitions.
-/

namespace DiffEqZoo

/-- The two numeric engines the registry can bind
(`_select_backend` in `src/diffeqzoo/__init__.py` knows exactly
`"jax"` and `"numpy"`).  A value of this type stands for an opaque
module handle, tagged by the engine it was imported from. -/
inductive Engine where
  | jax
  | numpy
deriving DecidableEq

/-- The lowered name string that `_select_backend` stores in
`self._backend_name` when it binds the given engine. -/
def Engine.engineName : Engine → String
  | .jax => "jax"
  | .numpy => "numpy"

/-- Python exceptions raised by the registry: `RuntimeError` is the
spec's "state error", `ValueError` the spec's "value error". -/
inductive Err where
  | runtimeError (msg : String)
  | valueError (msg : String)
deriving DecidableEq

/-- State of the `backend` registry object
(`backend.__init__` in `src/diffeqzoo/__init__.py`):
`_backend_name`, `_numpy_backend`, `_random_backend`, all `None`
at construction.  Module handles are modelled by the `Engine` tag of
the engine they come from. -/
structure BackendState where
  backend_name : Option String
  numpy_backend : Option Engine
  random_backend : Option Engine
deriving DecidableEq

/-- Python's `str.lower()` as used on backend names (character-wise
lowercasing; the names involved are ASCII). -/
def strLower (s : String) : String :=
  { data := s.data.map Char.toLower }

/-- A freshly constructed registry: every field is `None`. -/
def freshBackend : BackendState :=
  { backend_name := none, numpy_backend := none, random_backend := none }

/-- `backend.has_been_selected`: whether `self._numpy_backend is not None`. -/
def has_been_selected (s : BackendState) : Bool :=
  s.numpy_backend.isSome

/-- `backend._select_backend(backend_name)`: binds both module handles and
records the name when the name is `"jax"` or `"numpy"`, otherwise raises
`ValueError("Backend implementation not known.")` leaving the state
untouched.  The returned pair is (state after the call, raised error). -/
def select_backend (s : BackendState) (backend_name : String) :
    BackendState × Option Err :=
  if backend_name = "jax" then
    ({ backend_name := some backend_name,
       numpy_backend := some Engine.jax,
       random_backend := some Engine.jax }, none)
  else if backend_name = "numpy" then
    ({ backend_name := some backend_name,
       numpy_backend := some Engine.numpy,
       random_backend := some Engine.numpy }, none)
  else
    (s, some (Err.valueError "Backend implementation not known."))

/-- `backend.select(backend_name)`: raises
`RuntimeError("A backend has been selected already.")` when a backend
has been selected, otherwise calls `_select_backend(backend_name.lower())`. -/
def select (s : BackendState) (backend_name : String) :
    BackendState × Option Err :=
  if has_been_selected s then
    (s, some (Err.runtimeError "A backend has been selected already."))
  else
    select_backend s (strLower backend_name)

/-- Result of `backend.change_to`: the state after the call, the raised
error if any, and whether the redundant-revision warning was emitted. -/
structure ChangeResult where
  state : BackendState
  error : Option Err
  warned : Bool

/-- `backend.change_to(backend_name)`: raises a `RuntimeError` when no
backend has been selected yet; otherwise warns iff the stored name equals
the lowered requested name, then calls `_select_backend` exactly as
`select` would. -/
def change_to (s : BackendState) (backend_name : String) : ChangeResult :=
  if ¬ has_been_selected s then
    { state := s
      error := some (Err.runtimeError
        "The first backend-selection must be via `backend.select()`.")
      warned := false }
  else
    let warned := decide (s.backend_name = some (strLower backend_name))
    let r := select_backend s (strLower backend_name)
    { state := r.1, error := r.2, warned := warned }

/-- The `backend.numpy` property: raises a `RuntimeError` when nothing has
been selected, otherwise returns `self._numpy_backend`. -/
def numpyAccessor (s : BackendState) : Except Err (Option Engine) :=
  if ¬ has_been_selected s then
    Except.error (Err.runtimeError
      "A backend implementation has not been selected yet.")
  else
    Except.ok s.numpy_backend

/-- The `backend.random` property: raises a `RuntimeError` when nothing has
been selected, otherwise returns `self._random_backend`. -/
def randomAccessor (s : BackendState) : Except Err (Option Engine) :=
  if ¬ has_been_selected s then
    Except.error (Err.runtimeError
      "A backend implementation has not been selected yet.")
  else
    Except.ok s.random_backend

/-- A backend name the registry supports: its lowering is `"jax"` or
`"numpy"` (selection is case-insensitive, `select` lowercases first). -/
def supportedName (n : String) : Prop :=
  strLower n = "jax" ∨ strLower n = "numpy"

instance (n : String) : Decidable (supportedName n) := by
  unfold supportedName; infer_instance

/-! Order-reduction transform, from `src/odezoo/transform.py`. -/

/-- Arrays as handled by the order-reduction transform: NumPy
0-dimensional arrays (scalars) and 1-dimensional arrays.  Higher
dimensions never occur on the modelled code paths. -/
inductive NdArray (α : Type) where
  | scalar (x : α)
  | vector (xs : List α)
deriving DecidableEq

/-- `a.ndim`. -/
def NdArray.ndim {α : Type} : NdArray α → Nat
  | scalar _ => 0
  | vector _ => 1

/-- Flattening to one dimension, as `numpy.concatenate(..., axis=None)`
performs on each of its inputs. -/
def NdArray.ravel {α : Type} : NdArray α → List α
  | scalar x => [x]
  | vector xs => xs

/-- `backend.numpy.split(a, 2)`: splits a 1-dimensional array into two
equal halves; raises (modelled as `none`) on a 0-dimensional array or on
an array whose length is not divisible by 2. -/
def np_split2 {α : Type} : NdArray α → Option (NdArray α × NdArray α)
  | .scalar _ => none
  | .vector xs =>
      if xs.length % 2 = 0 then
        some (NdArray.vector (xs.take (xs.length / 2)),
              NdArray.vector (xs.drop (xs.length / 2)))
      else none

/-- `backend.numpy.stack((a, b))` on the modelled code paths: stacking
two 0-dimensional arrays yields a length-2 vector; stacking anything
else would produce a 2-dimensional array or raise, which is outside the
modelled array universe (`none`). -/
def np_stack2 {α : Type} : NdArray α → NdArray α → Option (NdArray α)
  | .scalar x, .scalar y => some (NdArray.vector [x, y])
  | _, _ => none

/-- `backend.numpy.concatenate((a, b), axis=None)`: flatten both inputs
and concatenate the results. -/
def np_concat2 {α : Type} (a b : NdArray α) : NdArray α :=
  NdArray.vector (a.ravel ++ b.ravel)

/-- Lines 68–70 of `src/odezoo/transform.py`: combine `(du, ddu)` into
the transformed field's output — stack when `du` is 0-dimensional,
concatenate (with `axis=None`) otherwise. -/
def combine_halves {α : Type} (du ddu : NdArray α) : Option (NdArray α) :=
  if du.ndim = 0 then np_stack2 du ddu
  else some (np_concat2 du ddu)

/-- `fn_transformed` inside `second_to_first_order_vf_auto`
(`src/odezoo/transform.py`, lines 65–70): split the state into `u, du`,
evaluate `ddu = fn(u, du, *args)`, and combine `(du, ddu)`.  A raised
exception (from the split or the combine) is `none`. -/
def fn_transformed {α σ : Type}
    (fn : NdArray α → NdArray α → σ → NdArray α)
    (u : NdArray α) (args : σ) : Option (NdArray α) :=
  (np_split2 u).bind fun p => combine_halves p.2 (fn p.1 p.2 args)

/-- The `_InitialValueProblem` record (`src/odezoo/ivps.py`, lines 7–11)
as returned by a second-order factory: `initial_values` is the pair
`(u0, du0)`.  `vector_field_args` is kept abstract in the type `σ`. -/
structure SecondOrderIVP (α σ : Type) where
  vector_field : NdArray α → NdArray α → σ → NdArray α
  initial_values : NdArray α × NdArray α
  time_span : α × α
  vector_field_args : σ

/-- The `_InitialValueProblem` record after `._replace` by the transform:
`vector_field` is first-order (and can raise on malformed states), and
`initial_values` is a single combined array. -/
structure FirstOrderIVP (α σ : Type) where
  vector_field : NdArray α → σ → Option (NdArray α)
  initial_values : NdArray α
  time_span : α × α
  vector_field_args : σ

/-- Lines 14–15 of `src/odezoo/transform.py`: a supplied combined
`initial_values` array is split in half before being handed to the
wrapped factory; an omitted one (`None`) is passed through. -/
def split_supplied {α : Type} (initial_values : Option (NdArray α)) :
    Option (Option (NdArray α × NdArray α)) :=
  match initial_values with
  | none => some none
  | some iv => (np_split2 iv).map some

/-- Lines 21–24 of `src/odezoo/transform.py`: the transformed record's
`initial_values` — stack the pair when `u0s[0]` is 0-dimensional,
concatenate with `axis=None` otherwise. -/
def combine_u0s {α : Type} (u0s : NdArray α × NdArray α) :
    Option (NdArray α) :=
  if u0s.1.ndim = 0 then np_stack2 u0s.1 u0s.2
  else some (np_concat2 u0s.1 u0s.2)

/-- `ivp_fn_transformed` inside `second_to_first_order_auto`
(`src/odezoo/transform.py`, lines 12–31): split a supplied combined
initial value, call the wrapped factory, then return the factory's
record with `initial_values` combined from the pair and `vector_field`
transformed; `time_span` and `vector_field_args` come through
`._replace` untouched. -/
def ivp_fn_transformed {α σ : Type}
    (ivp_fn : Option (NdArray α × NdArray α) → SecondOrderIVP α σ)
    (initial_values : Option (NdArray α)) : Option (FirstOrderIVP α σ) :=
  (split_supplied initial_values).bind fun ivs =>
    let ivp_untransformed := ivp_fn ivs
    (combine_u0s ivp_untransformed.initial_values).map fun iv_new =>
      { vector_field := fn_transformed ivp_untransformed.vector_field
        initial_values := iv_new
        time_span := ivp_untransformed.time_span
        vector_field_args := ivp_untransformed.vector_field_args }

/-- One component of the Van-der-Pol dynamics
(`src/odezoo/vector_fields.py`, line 15). -/
def vdp_component (stiffness_constant x dx : ℚ) : ℚ :=
  stiffness_constant * ((1 - x ^ 2) * dx - x)

/-- `vector_fields.van_der_pol(u, du, stiffness_constant)`
(`src/odezoo/vector_fields.py`, lines 13–15), elementwise with NumPy
broadcasting between 0- and 1-dimensional arguments. -/
def van_der_pol_vf (u du : NdArray ℚ) (stiffness_constant : ℚ) : NdArray ℚ :=
  match u, du with
  | .scalar x, .scalar dx => .scalar (vdp_component stiffness_constant x dx)
  | .scalar x, .vector dxs =>
      .vector (dxs.map (vdp_component stiffness_constant x))
  | .vector xs, .scalar dx =>
      .vector (xs.map (fun x => vdp_component stiffness_constant x dx))
  | .vector xs, .vector dxs =>
      .vector ((xs.zip dxs).map
        (fun p => vdp_component stiffness_constant p.1 p.2))

/-- `ivps.van_der_pol(...)` (`src/odezoo/ivps.py`, lines 520–542):
defaults to the 0-dimensional pair `u0 = asarray(2.0)`,
`du0 = asarray(0.0)` when no initial values are supplied, and stores a
supplied pair unchanged. -/
def van_der_pol_ivp (stiffness_constant : ℚ) (time_span : ℚ × ℚ)
    (initial_values : Option (NdArray ℚ × NdArray ℚ)) :
    SecondOrderIVP ℚ ℚ :=
  { vector_field := van_der_pol_vf
    initial_values :=
      match initial_values with
      | none => (NdArray.scalar 2, NdArray.scalar 0)
      | some p => p
    time_span := time_span
    vector_field_args := stiffness_constant }

/-- The second-order test field `f(u, du) = -u` used by the spec's P6
("stiffness-free decay"). -/
def neg_decay_field (u _du : NdArray ℚ) (_args : Unit) : NdArray ℚ :=
  match u with
  | .scalar x => .scalar (-x)
  | .vector xs => .vector (xs.map (fun x => -x))

theorem ravel_vector {α : Type} (xs : List α) :
    (NdArray.vector xs).ravel = xs := rfl

theorem take_of_length_append {α : Type} (l₁ l₂ : List α) (n : Nat)
    (h : l₁.length = n) : (l₁ ++ l₂).take n = l₁ := by
  subst h; exact List.take_left l₁ l₂

theorem drop_of_length_append {α : Type} (l₁ l₂ : List α) (n : Nat)
    (h : l₁.length = n) : (l₁ ++ l₂).drop n = l₂ := by
  subst h; exact List.drop_left l₁ l₂

/-- Evaluation of the transformed vector field on an even-length
1-dimensional state. -/
theorem fn_transformed_eval {α σ : Type}
    (fn : NdArray α → NdArray α → σ → NdArray α) (xs : List α) (args : σ)
    (h : xs.length % 2 = 0) :
    fn_transformed fn (NdArray.vector xs) args =
      some (np_concat2 (NdArray.vector (xs.drop (xs.length / 2)))
        (fn (NdArray.vector (xs.take (xs.length / 2)))
            (NdArray.vector (xs.drop (xs.length / 2))) args)) := by
  simp [fn_transformed, np_split2, h, combine_halves, NdArray.ndim]

/-- The pairing invariant of the registry (spec §3): the array-operations
handle and the random-operations handle are unset together, or bound
together to handles of one engine whose lowered name is the recorded
backend name. -/
def pairedInvariant (s : BackendState) : Prop :=
  (s.numpy_backend = none ∧ s.random_backend = none ∧ s.backend_name = none) ∨
  ∃ e : Engine, s.numpy_backend = some e ∧ s.random_backend = some e ∧
    s.backend_name = some e.engineName

/-- Registry states reachable from a freshly constructed registry by any
sequence of `select` and `change_to` calls (the accessors do not mutate). -/
inductive Reachable : BackendState → Prop where
  | fresh : Reachable freshBackend
  | step_select (s : BackendState) (n : String) :
      Reachable s → Reachable (select s n).1
  | step_change (s : BackendState) (n : String) :
      Reachable s → Reachable (change_to s n).state

theorem pairedInvariant_select_backend (s : BackendState) (n : String)
    (h : pairedInvariant s) : pairedInvariant (select_backend s n).1 := by
  by_cases hj : n = "jax"
  · exact Or.inr ⟨Engine.jax, by simp [select_backend, hj, Engine.engineName]⟩
  · by_cases hn : n = "numpy"
    · exact Or.inr ⟨Engine.numpy,
        by simp [select_backend, hj, hn, Engine.engineName]⟩
    · simpa [select_backend, hj, hn] using h

theorem pairedInvariant_select (s : BackendState) (n : String)
    (h : pairedInvariant s) : pairedInvariant (select s n).1 := by
  unfold select
  by_cases hs : has_been_selected s = true
  · simpa [hs] using h
  · simpa [hs] using pairedInvariant_select_backend s (strLower n) h

theorem pairedInvariant_change_to (s : BackendState) (n : String)
    (h : pairedInvariant s) : pairedInvariant (change_to s n).state := by
  unfold change_to
  by_cases hs : has_been_selected s = true
  · simpa [hs] using pairedInvariant_select_backend s (strLower n) h
  · simpa [hs] using h

/-- C1.  For every supported backend name, `select` on a fresh registry
succeeds (no error raised) and marks the registry as selected; any second
`select` call, with any supported name, raises the
"already selected" `RuntimeError` and returns the state unchanged. -/
theorem select_is_one_shot (n1 n2 : String)
    (h1 : supportedName n1) (h2 : supportedName n2) :
    (select freshBackend n1).2 = none ∧
    has_been_selected (select freshBackend n1).1 = true ∧
    select (select freshBackend n1).1 n2 =
      ((select freshBackend n1).1,
       some (Err.runtimeError "A backend has been selected already.")) := by
  clear h2
  rcases h1 with h | h <;>
    simp [select, freshBackend, has_been_selected, select_backend, h]

/-- Witness for C1 at the concrete names `"numpy"` then `"JAX"`. -/
theorem select_is_one_shot_witness :
    supportedName "numpy" ∧ supportedName "JAX" ∧
    ((select freshBackend "numpy").2 = none ∧
     has_been_selected (select freshBackend "numpy").1 = true ∧
     select (select freshBackend "numpy").1 "JAX" =
       ((select freshBackend "numpy").1,
        some (Err.runtimeError "A backend has been selected already."))) :=
  ⟨by decide, by decide,
   select_is_one_shot "numpy" "JAX" (by decide) (by decide)⟩

/-- C2.  On a freshly constructed registry, with no prior `select`,
both the `numpy` accessor and the `random` accessor raise the
"not been selected yet" `RuntimeError`. -/
theorem accessors_error_before_select :
    numpyAccessor freshBackend =
      Except.error (Err.runtimeError
        "A backend implementation has not been selected yet.") ∧
    randomAccessor freshBackend =
      Except.error (Err.runtimeError
        "A backend implementation has not been selected yet.") :=
  ⟨rfl, rfl⟩

/-- C5.  `select "not-a-backend"` on a fresh registry raises a
`ValueError`, leaves the registry unselected and entirely unchanged, and a
subsequent `select` with any supported name still succeeds. -/
theorem unknown_backend_rejected :
    (select freshBackend "not-a-backend").2 =
      some (Err.valueError "Backend implementation not known.") ∧
    (select freshBackend "not-a-backend").1 = freshBackend ∧
    has_been_selected (select freshBackend "not-a-backend").1 = false ∧
    ∀ n, supportedName n →
      (select (select freshBackend "not-a-backend").1 n).2 = none ∧
      has_been_selected (select (select freshBackend "not-a-backend").1 n).1
        = true := by
  refine ⟨by decide, by decide, by decide, ?_⟩
  intro n hn
  have hs : (select freshBackend "not-a-backend").1 = freshBackend := by decide
  rw [hs]
  rcases hn with h | h <;>
    simp [select, freshBackend, has_been_selected, select_backend, h]

/-- Witness for C5: the follow-up `select` with `"numpy"` succeeds. -/
theorem unknown_backend_rejected_witness :
    supportedName "numpy" ∧
    ((select (select freshBackend "not-a-backend").1 "numpy").2 = none ∧
     has_been_selected
       (select (select freshBackend "not-a-backend").1 "numpy").1 = true) :=
  ⟨by decide, unknown_backend_rejected.2.2.2 "numpy" (by decide)⟩

/-- C6.  In every registry state reachable by `select`/`change_to`
calls from a fresh registry, the numpy handle and the random handle are
unset together or bound together to the engine named by the recorded
backend name; moreover each single `select` or `change_to` call preserves
this pairing invariant. -/
theorem registry_paired_handles :
    (∀ s : BackendState, Reachable s → pairedInvariant s) ∧
    (∀ (s : BackendState) (n : String), pairedInvariant s →
      pairedInvariant (select s n).1 ∧
      pairedInvariant (change_to s n).state) := by
  constructor
  · intro s h
    induction h with
    | fresh => exact Or.inl ⟨rfl, rfl, rfl⟩
    | step_select s n _ ih => exact pairedInvariant_select s n ih
    | step_change s n _ ih => exact pairedInvariant_change_to s n ih
  · intro s n h
    exact ⟨pairedInvariant_select s n h, pairedInvariant_change_to s n h⟩

/-- Witness for C6 at the reachable state after `select "numpy"`. -/
theorem registry_paired_handles_witness :
    Reachable (select freshBackend "numpy").1 ∧
    pairedInvariant (select freshBackend "numpy").1 :=
  ⟨Reachable.step_select freshBackend "numpy" Reachable.fresh,
   registry_paired_handles.1 (select freshBackend "numpy").1
     (Reachable.step_select freshBackend "numpy" Reachable.fresh)⟩

/-- C7.  After `select n`, calling `change_to n` with the same
supported name emits the redundant-revision warning, raises no error,
still re-binds through `_select_backend`, and both accessors afterwards
return the bound handles without error. -/
theorem change_to_redundant_warns (n : String) (h : supportedName n) :
    (change_to (select freshBackend n).1 n).warned = true ∧
    (change_to (select freshBackend n).1 n).error = none ∧
    (change_to (select freshBackend n).1 n).state =
      (select_backend (select freshBackend n).1 (strLower n)).1 ∧
    has_been_selected (change_to (select freshBackend n).1 n).state = true ∧
    numpyAccessor (change_to (select freshBackend n).1 n).state =
      Except.ok (change_to (select freshBackend n).1 n).state.numpy_backend ∧
    randomAccessor (change_to (select freshBackend n).1 n).state =
      Except.ok (change_to (select freshBackend n).1 n).state.random_backend := by
  rcases h with h | h <;>
    simp [select, change_to, select_backend, freshBackend, has_been_selected,
      numpyAccessor, randomAccessor, h]

/-- Witness for C7 at the concrete name `"jax"`. -/
theorem change_to_redundant_warns_witness :
    supportedName "jax" ∧
    ((change_to (select freshBackend "jax").1 "jax").warned = true ∧
     (change_to (select freshBackend "jax").1 "jax").error = none ∧
     (change_to (select freshBackend "jax").1 "jax").state =
       (select_backend (select freshBackend "jax").1 (strLower "jax")).1 ∧
     has_been_selected (change_to (select freshBackend "jax").1 "jax").state
       = true ∧
     numpyAccessor (change_to (select freshBackend "jax").1 "jax").state =
       Except.ok
         (change_to (select freshBackend "jax").1 "jax").state.numpy_backend ∧
     randomAccessor (change_to (select freshBackend "jax").1 "jax").state =
       Except.ok
         (change_to (select freshBackend "jax").1 "jax").state.random_backend) :=
  ⟨by decide, change_to_redundant_warns "jax" (by decide)⟩

/-- C8.  `change_to` with a supported name on a registry on which
`select` has never succeeded raises the "select first" `RuntimeError` and
leaves the registry unselected and unchanged. -/
theorem change_to_requires_selection (n : String) (h : supportedName n) :
    (change_to freshBackend n).error =
      some (Err.runtimeError
        "The first backend-selection must be via `backend.select()`.") ∧
    (change_to freshBackend n).state = freshBackend ∧
    has_been_selected (change_to freshBackend n).state = false :=
  ⟨rfl, rfl, rfl⟩

/-- Evaluation of the transformed factory when both the split of a
supplied initial value and the combination of the untransformed pair
succeed. -/
theorem ivp_fn_transformed_eval {α σ : Type}
    (ivp_fn : Option (NdArray α × NdArray α) → SecondOrderIVP α σ)
    (iv : Option (NdArray α)) (ivs : Option (NdArray α × NdArray α))
    (iv_new : NdArray α)
    (hsplit : split_supplied iv = some ivs)
    (hcomb : combine_u0s (ivp_fn ivs).initial_values = some iv_new) :
    ivp_fn_transformed ivp_fn iv =
      some { vector_field := fn_transformed (ivp_fn ivs).vector_field
             initial_values := iv_new
             time_span := (ivp_fn ivs).time_span
             vector_field_args := (ivp_fn ivs).vector_field_args } := by
  unfold ivp_fn_transformed
  rw [hsplit]
  simp only [Option.some_bind]
  rw [hcomb]
  rfl

/-- C3.  The transformed vector field on an even-length state
`y = concat(u, du)` returns `concat(du, f(u, du, *args))`; splitting
that output in half reproduces `(du, f(u, du, *args))` whenever `f`
returns an array of the same length as `du`; and in particular for
`f(u, du) = -u` with length-3 vectors `u, du`, the transformed field at
`concat(u, du)` is `concat(du, -u)`. -/
theorem transform_vf_concat :
    (∀ (α σ : Type) (fn : NdArray α → NdArray α → σ → NdArray α)
       (xs : List α) (args : σ), xs.length % 2 = 0 →
       fn_transformed fn (NdArray.vector xs) args =
         some (np_concat2 (NdArray.vector (xs.drop (xs.length / 2)))
           (fn (NdArray.vector (xs.take (xs.length / 2)))
               (NdArray.vector (xs.drop (xs.length / 2))) args))) ∧
    (∀ (α σ : Type) (fn : NdArray α → NdArray α → σ → NdArray α)
       (xs : List α) (args : σ), xs.length % 2 = 0 →
       (fn (NdArray.vector (xs.take (xs.length / 2)))
           (NdArray.vector (xs.drop (xs.length / 2))) args).ravel.length
         = xs.length / 2 →
       (fn_transformed fn (NdArray.vector xs) args).bind np_split2 =
         some (NdArray.vector (xs.drop (xs.length / 2)),
           NdArray.vector ((fn (NdArray.vector (xs.take (xs.length / 2)))
             (NdArray.vector (xs.drop (xs.length / 2))) args).ravel))) ∧
    (∀ u du : List ℚ, u.length = 3 → du.length = 3 →
       fn_transformed neg_decay_field (NdArray.vector (u ++ du)) () =
         some (NdArray.vector (du ++ u.map (fun x => -x)))) := by
  refine ⟨?_, ?_, ?_⟩
  · intro α σ fn xs args h
    exact fn_transformed_eval fn xs args h
  · intro α σ fn xs args h hlen
    have hdl : (xs.drop (xs.length / 2)).length = xs.length / 2 := by
      rw [List.length_drop]; omega
    rw [fn_transformed_eval fn xs args h]
    set r := (fn (NdArray.vector (xs.take (xs.length / 2)))
        (NdArray.vector (xs.drop (xs.length / 2))) args).ravel with hr
    simp only [Option.some_bind, np_concat2, ravel_vector, np_split2]
    rw [List.length_append, hdl, hlen]
    rw [if_pos (by omega)]
    have h2 : (xs.length / 2 + xs.length / 2) / 2 = xs.length / 2 := by omega
    rw [h2,
      take_of_length_append _ _ _ hdl,
      drop_of_length_append _ _ _ hdl]
  · intro u du h1 h2
    have hlen : (u ++ du).length % 2 = 0 := by
      simp [List.length_append, h1, h2]
    rw [fn_transformed_eval neg_decay_field (u ++ du) () hlen]
    have hl : (u ++ du).length = 6 := by
      simp [List.length_append, h1, h2]
    rw [hl]
    norm_num
    rw [take_of_length_append u du 3 h1, drop_of_length_append u du 3 h1]
    simp [np_concat2, NdArray.ravel, neg_decay_field]

/-- Witness for C3: the decay field on `u = [1, 2, 3]`, `du = [4, 5, 6]`. -/
theorem transform_vf_concat_witness :
    fn_transformed neg_decay_field
        (NdArray.vector ([1, 2, 3] ++ [4, 5, 6])) () =
      some (NdArray.vector ([4, 5, 6] ++ [(1:ℚ), 2, 3].map (fun x => -x))) :=
  transform_vf_concat.2.2 [1, 2, 3] [4, 5, 6] rfl rfl

/-- C4.  The combining step of the transformed vector field stacks
rather than concatenates when `du` is 0-dimensional, as does the
combining step for the untransformed initial values when `u0` is
0-dimensional; and for the wrapped Van-der-Pol factory, whose default
initial values are the 0-dimensional pair `(2.0, 0.0)`, the transformed
factory's `initial_values` is the length-2 array `[2.0, 0.0]` and the
transformed field evaluated there returns a length-2 array. -/
theorem transform_scalar_stacking :
    (∀ du ddu : NdArray ℚ, du.ndim = 0 →
       combine_halves du ddu = np_stack2 du ddu) ∧
    (∀ u0 du0 : NdArray ℚ, u0.ndim = 0 →
       combine_u0s (u0, du0) = np_stack2 u0 du0) ∧
    (∃ r : FirstOrderIVP ℚ ℚ,
       ivp_fn_transformed (van_der_pol_ivp 1 (0, 63/10)) none = some r ∧
       r.initial_values = NdArray.vector [2, 0] ∧
       ∃ out : NdArray ℚ,
         r.vector_field (NdArray.vector [2, 0]) 1 = some out ∧
         out.ravel.length = 2) := by
  refine ⟨?_, ?_, ?_⟩
  · intro du ddu h
    simp [combine_halves, h]
  · intro u0 du0 h
    simp [combine_u0s, h]
  · refine ⟨_, rfl, rfl, ?_⟩
    refine ⟨_, rfl, ?_⟩
    decide

/-- Witness for C4: the combining step on the 0-dimensional pair
`(2.0, 0.0)` stacks. -/
theorem transform_scalar_stacking_witness :
    NdArray.ndim (NdArray.scalar (2:ℚ)) = 0 ∧
    combine_halves (NdArray.scalar (2:ℚ)) (NdArray.scalar 0) =
      np_stack2 (NdArray.scalar 2) (NdArray.scalar 0) :=
  ⟨rfl, transform_scalar_stacking.1 (NdArray.scalar 2) (NdArray.scalar 0) rfl⟩

/-- C9.  Whenever the transformed factory returns a record, that
record keeps the `time_span` and `vector_field_args` of the record the
wrapped factory returned, its `vector_field` is the transformed field of
the wrapped record, and its `initial_values` is the combination of the
wrapped record's `(u0, du0)` pair. -/
theorem transform_preserves_frame {α σ : Type}
    (ivp_fn : Option (NdArray α × NdArray α) → SecondOrderIVP α σ)
    (iv : Option (NdArray α)) (ivs : Option (NdArray α × NdArray α))
    (r : FirstOrderIVP α σ)
    (hsplit : split_supplied iv = some ivs)
    (hres : ivp_fn_transformed ivp_fn iv = some r) :
    r.time_span = (ivp_fn ivs).time_span ∧
    r.vector_field_args = (ivp_fn ivs).vector_field_args ∧
    r.vector_field = fn_transformed (ivp_fn ivs).vector_field ∧
    combine_u0s (ivp_fn ivs).initial_values = some r.initial_values := by
  unfold ivp_fn_transformed at hres
  rw [hsplit] at hres
  simp only [Option.some_bind] at hres
  rcases hc : combine_u0s (ivp_fn ivs).initial_values with _ | iv_new
  · rw [hc] at hres
    simp at hres
  · rw [hc] at hres
    simp only [Option.map_some', Option.some.injEq] at hres
    subst hres
    exact ⟨rfl, rfl, rfl, rfl⟩

/-- The record the transformed Van-der-Pol factory returns for the
default initial values. -/
def vdp_first_order_record : FirstOrderIVP ℚ ℚ :=
  { vector_field := fn_transformed van_der_pol_vf
    initial_values := NdArray.vector [2, 0]
    time_span := (0, 63/10)
    vector_field_args := 1 }

/-- Witness for C9 on the transformed Van-der-Pol factory with default
initial values. -/
theorem transform_preserves_frame_witness :
    split_supplied (α := ℚ) none = some none ∧
    ivp_fn_transformed (van_der_pol_ivp 1 (0, 63/10)) none =
      some vdp_first_order_record ∧
    (vdp_first_order_record.time_span =
       (van_der_pol_ivp 1 (0, 63/10) none).time_span ∧
     vdp_first_order_record.vector_field_args =
       (van_der_pol_ivp 1 (0, 63/10) none).vector_field_args ∧
     vdp_first_order_record.vector_field =
       fn_transformed (van_der_pol_ivp 1 (0, 63/10) none).vector_field ∧
     combine_u0s (van_der_pol_ivp 1 (0, 63/10) none).initial_values =
       some vdp_first_order_record.initial_values) :=
  ⟨rfl, rfl,
   transform_preserves_frame (van_der_pol_ivp 1 (0, 63/10)) none none
     vdp_first_order_record rfl rfl⟩

/-- C10.  A combined `initial_values` array supplied to the
transformed factory is split in half and handed to the wrapped factory
as the pair `(u0, du0)`; and for every wrapped factory that stores a
supplied pair unchanged, the transformed factory returns a record whose
`initial_values` equals the supplied even-length vector (split followed
by concatenation round-trips). -/
theorem transform_roundtrips_initial_values {σ : Type}
    (ivp_fn : Option (NdArray ℚ × NdArray ℚ) → SecondOrderIVP ℚ σ)
    (hstore : ∀ p, (ivp_fn (some p)).initial_values = p)
    (xs : List ℚ) (h : xs.length % 2 = 0) :
    split_supplied (some (NdArray.vector xs)) =
      some (some (NdArray.vector (xs.take (xs.length / 2)),
                  NdArray.vector (xs.drop (xs.length / 2)))) ∧
    ∃ r : FirstOrderIVP ℚ σ,
      ivp_fn_transformed ivp_fn (some (NdArray.vector xs)) = some r ∧
      r.initial_values = NdArray.vector xs := by
  have hsplit : split_supplied (some (NdArray.vector xs)) =
      some (some (NdArray.vector (xs.take (xs.length / 2)),
                  NdArray.vector (xs.drop (xs.length / 2)))) := by
    simp [split_supplied, np_split2, h]
  have hcomb :
      combine_u0s (ivp_fn (some (NdArray.vector (xs.take (xs.length / 2)),
        NdArray.vector (xs.drop (xs.length / 2))))).initial_values =
      some (NdArray.vector xs) := by
    rw [hstore]
    simp [combine_u0s, NdArray.ndim, np_concat2, NdArray.ravel]
  exact ⟨hsplit, _,
    ivp_fn_transformed_eval ivp_fn _ _ _ hsplit hcomb, rfl⟩

/-- Witness for C10: the Van-der-Pol factory with the supplied combined
vector `[1, 2]`. -/
theorem transform_roundtrips_initial_values_witness :
    split_supplied (some (NdArray.vector [(1:ℚ), 2])) =
      some (some (NdArray.vector [(1:ℚ)], NdArray.vector [2])) ∧
    ∃ r : FirstOrderIVP ℚ ℚ,
      ivp_fn_transformed (van_der_pol_ivp 1 (0, 63/10))
          (some (NdArray.vector [(1:ℚ), 2])) = some r ∧
      r.initial_values = NdArray.vector [(1:ℚ), 2] :=
  transform_roundtrips_initial_values (van_der_pol_ivp 1 (0, 63/10))
    (fun _ => rfl) [1, 2] rfl

/-- Witness for C8 at the concrete name `"numpy"`. -/
theorem change_to_requires_selection_witness :
    supportedName "numpy" ∧
    ((change_to freshBackend "numpy").error =
       some (Err.runtimeError
         "The first backend-selection must be via `backend.select()`.") ∧
     (change_to freshBackend "numpy").state = freshBackend ∧
     has_been_selected (change_to freshBackend "numpy").state = false) :=
  ⟨by decide, change_to_requires_selection "numpy" (by decide)⟩

end DiffEqZoo
